import Mathlib

/-!
Verification of the catnip TCP established-state engine (demikernel fork).

Shallow embedding of the Rust sources under src/src/rust/catnip/src:
  protocols/tcp/established/state/sender.rs              (Sender, embedded cc)
  protocols/tcp/established/state/receiver.rs            (Receiver)
  protocols/tcp/established/state/congestion_control.rs  (Cubic)
  protocols/tcp/established/background/retransmitter.rs  (retransmit)
  protocols/arp/cache/mod.rs                             (ArpCache)

Modelling conventions:
  - `SeqNumber` is `Wrapping<u32>` in the source (see the pattern match
    `let Wrapping(sent_data) = sent_seq - base_seq` in sender.rs); it is
    modelled as `Nat` values below `2^32` with explicit wraparound, and the
    derived `Ord` of `Wrapping<u32>` is plain unsigned comparison, modelled
    as `Nat` comparison.
  - `Instant` and `Duration` are modelled as `Nat` (an abstract tick count).
  - `Bytes` is modelled as `List Nat`; fallible operations return the
    `Fail` value as `Option Fail` (`none` is `Ok(())`).
  - Unsigned Rust arithmetic is modelled as wrapping (the release-build
    semantics); debug builds panic at the same inputs, which is noted where
    it matters.
-/

namespace Demikernel

/-- Modulus of 32-bit arithmetic. -/
def u32Mod : Nat := 4294967296

/-- Wrapping 32-bit addition (`Wrapping<u32>` addition, `u32::wrapping_add`). -/
def u32add (a b : Nat) : Nat := (a + b) % u32Mod

/-- Wrapping 32-bit subtraction (`Wrapping<u32>` subtraction, `u32::wrapping_sub`). -/
def u32sub (a b : Nat) : Nat := (a + (u32Mod - b % u32Mod)) % u32Mod

theorem u32add_eq (a b : Nat) (ha : a < u32Mod) (hb : b < u32Mod) :
    u32add a b = if a + b < u32Mod then a + b else a + b - u32Mod := by
  simp only [u32add, u32Mod] at *
  split <;> omega

theorem u32sub_eq (a b : Nat) (ha : a < u32Mod) (hb : b < u32Mod) :
    u32sub a b = if b ≤ a then a - b else a + u32Mod - b := by
  simp only [u32sub, u32Mod] at *
  split <;> omega

theorem u32sub_lt (a b : Nat) (ha : a < u32Mod) : u32sub a b < u32Mod := by
  simp only [u32sub, u32Mod] at *
  omega

theorem u32add_lt (a b : Nat) : u32add a b < u32Mod := by
  simp only [u32add, u32Mod]
  omega

theorem u32sub_add_right (a b k : Nat) (ha : a < u32Mod) (hb : b < u32Mod)
    (h : u32sub a b + k < u32Mod) :
    u32sub (u32add a k) b = u32sub a b + k := by
  simp only [u32add, u32sub, u32Mod] at *
  omega

theorem u32sub_base_advance (a b k : Nat) (ha : a < u32Mod) (hb : b < u32Mod)
    (hk : k ≤ u32sub a b) :
    u32sub a (u32add b k) = u32sub a b - k := by
  simp only [u32add, u32sub, u32Mod] at *
  omega

/-! Exact model of the two binary32 expressions used by the CUBIC reduction
branches.  A binary32 value is represented as an exact dyadic rational
`m / 2^k`.  Rounding is round-to-nearest, ties-to-even; overflow and
subnormals cannot occur for the `u32`-range inputs these expressions see. -/

/-- Number of binary digits of `n` (fuel-bounded; exact for `n < 2^64`,
which covers every intermediate value of the expressions modelled here). -/
def bitlenAux : Nat → Nat → Nat
  | 0, _ => 0
  | fuel + 1, n => if n = 0 then 0 else bitlenAux fuel (n / 2) + 1

def bitlen (n : Nat) : Nat := bitlenAux 64 n

/-- Round `p / 2^s` to an integer, round-to-nearest with ties-to-even. -/
def rshiftRNE (p s : Nat) : Nat :=
  let q := p / 2 ^ s
  let r := p % 2 ^ s
  if 2 * r < 2 ^ s then q
  else if 2 ^ s < 2 * r then q + 1
  else if q % 2 = 0 then q else q + 1

/-- Round the exact dyadic rational `p / 2^k` to the nearest binary32 value
(24 significant bits, ties to even), returned as an exact dyadic rational. -/
def f32Round (p k : Nat) : Nat × Nat :=
  if p = 0 then (0, k)
  else
    let b := bitlen p
    if b ≤ 24 then (p, k)
    else (rshiftRNE p (b - 24) * 2 ^ (b - 24), k)

/-- The binary32 constant `0.7f32` is exactly `11744051 / 2^24`. -/
def beta32Num : Nat := 11744051

/-- Model of the Rust expression `(x as f32 * Self::BETA_CUBIC) as u32`
(congestion_control.rs lines 261 and 359): `x` is rounded to binary32, the
product with the binary32 constant `0.7` is rounded to binary32, and the
result is truncated to `u32` (Rust float-to-int casts saturate). -/
def mulBetaF32 (x : Nat) : Nat :=
  let mk := f32Round x 0
  let mk2 := f32Round (mk.1 * beta32Num) (mk.2 + 24)
  min (mk2.1 / 2 ^ mk2.2) (u32Mod - 1)

/-- Model of `(cwnd as f32 * (1. + Self::BETA_CUBIC) / 2.) as u32`
(congestion_control.rs line 217).  The sum `1. + BETA_CUBIC` evaluates to
the binary32 value `14260634 / 2^23` (the exact sum is a representable tie,
rounded to even); the final division by `2.` is exact in binary floating
point, so it only shifts the exponent before truncation to `u32`. -/
def halfOnePlusBetaF32 (x : Nat) : Nat :=
  let mk := f32Round x 0
  let mk2 := f32Round (mk.1 * 14260634) (mk.2 + 23)
  min (mk2.1 / 2 ^ (mk2.2 + 1)) (u32Mod - 1)

example : mulBetaF32 2000 = 1400 := by decide
example : mulBetaF32 4000 = 2800 := by decide
example : mulBetaF32 0 = 0 := by decide

/-! Error taxonomy (fail.rs).  Only the kinds reached by the modelled
operations are included.  Detail strings follow the source, except that the
mid-segment acknowledgement detail string is written here as
`ACK is not on segment boundary`, expanding the contraction the source
uses. -/

inductive Fail where
  | Ignored (details : String)
  | ResourceNotFound (details : String)
  | ResourceExhausted (details : String)
  deriving DecidableEq, Repr

/-! Sender model (sender.rs). -/

inductive SenderState where
  | Open
  | Closed
  | SentFin
  | FinAckd
  | Reset
  deriving DecidableEq, Repr

/-- sender.rs lines 24 to 28.  `retransmitted` is a ghost field recording
whether the segment was ever retransmitted; it influences no computation and
exists only to state the Karn property (claim C8). -/
structure UnackedSegment where
  bytes : List Nat
  initial_tx : Option Nat
  retransmitted : Bool
  deriving DecidableEq, Repr

/-- sender.rs lines 300 to 328.  `cwnd` carries the value of
`congestion_ctrl.cwnd` (the only congestion-control attribute `send` reads;
the congestion-control algorithm state itself is modelled separately and
mutates none of the fields below).  `rto_estimate` carries the value of
`rto.borrow().estimate()`: the `RtoCalculator` source is not under src/, so
the estimate is kept abstract and unchanged by the operations (its value is
irrelevant to every claim; only which samples are fed matters, recorded in
the ghost field `rto_samples` as pairs of the sampled segment and the
sample duration `now - initial_tx`). -/
structure Sender where
  state : SenderState
  base_seq_no : Nat
  unacked_queue : List UnackedSegment
  sent_seq_no : Nat
  unsent_queue : List (List Nat)
  unsent_seq_no : Nat
  window_size : Nat
  window_scale : Nat
  mss : Nat
  retransmit_deadline : Option Nat
  cwnd : Nat
  rto_estimate : Nat
  rto_samples : List (UnackedSegment × Nat)
  deriving DecidableEq, Repr

/-- Sum of the byte lengths of the unacked queue. -/
def unackedLen (q : List UnackedSegment) : Nat :=
  (q.map (fun seg => seg.bytes.length)).sum

/-- Sum of the byte lengths of the unsent queue. -/
def unsentLen (q : List (List Nat)) : Nat :=
  (q.map List.length).sum

/-- Initial RTO estimate.  Modelled from the spec: RFC 6298 estimator with
`rto` in `[1 s, 60 s]`, initial value 1 s (`RtoCalculator` is not under
src/).  Time unit: nanoseconds. -/
def rtoInitialEstimate : Nat := 1000000000

/-- `Sender::new` (sender.rs lines 346 to 369).  The initial `cwnd` is the
RFC 5681 initial window computed by `CongestionControl::new` (lines 58 to
75). -/
def Sender.new (seq_no window_size : Nat) (window_scale mss : Nat) : Sender :=
  let initial_cwnd :=
    if mss ≤ 1095 then 4 * mss else if mss ≤ 2190 then 3 * mss else 2 * mss
  { state := SenderState.Open
    base_seq_no := seq_no
    unacked_queue := []
    sent_seq_no := seq_no
    unsent_queue := []
    unsent_seq_no := seq_no
    window_size := window_size
    window_scale := window_scale
    mss := mss
    retransmit_deadline := none
    cwnd := initial_cwnd
    rto_estimate := rtoInitialEstimate
    rto_samples := [] }

/-- `Sender::send` (sender.rs lines 371 to 413).  `arp` is the result of
`cb.arp.try_query(cb.remote.address())` (`true` when the peer MAC resolves
synchronously); `now` is `cb.rt.now()`.  The emission itself
(`cb.emit`) has no effect on the modelled state.  The fast-path guard sum
`sent_data + buf_len` is plain `u32` addition in the source: it wraps in
release builds (and panics in debug builds), so it is modelled with
`u32add`. -/
def Sender.send (s : Sender) (buf : List Nat) (arp : Bool) (now : Nat) :
    Sender × Option Fail :=
  if s.state ≠ SenderState.Open then
    (s, some (Fail.Ignored "Sender closed"))
  else if u32Mod ≤ buf.length then
    (s, some (Fail.Ignored "Buffer too large"))
  else
    let buf_len := buf.length
    let win_sz := s.window_size
    let sent_data := u32sub s.sent_seq_no s.base_seq_no
    if 0 < win_sz ∧ u32add sent_data buf_len ≤ win_sz
        ∧ u32add sent_data buf_len ≤ s.cwnd ∧ arp then
      ({ s with
          unsent_seq_no := u32add s.unsent_seq_no buf_len
          sent_seq_no := u32add s.sent_seq_no buf_len
          unacked_queue := s.unacked_queue ++
            [{ bytes := buf, initial_tx := some now, retransmitted := false }]
          retransmit_deadline :=
            match s.retransmit_deadline with
            | none => some (now + s.rto_estimate)
            | some d => some d },
        none)
    else
      ({ s with
          unsent_queue := s.unsent_queue ++ [buf]
          unsent_seq_no := u32add s.unsent_seq_no buf_len },
        none)

/-- `Sender::close` (sender.rs lines 415 to 423). -/
def Sender.close (s : Sender) : Sender × Option Fail :=
  if s.state ≠ SenderState.Open then
    (s, some (Fail.Ignored "Sender closed"))
  else
    ({ s with state := SenderState.Closed }, none)

/-- Result of the acknowledgement pop loop. -/
structure AckPop where
  queue : List UnackedSegment
  samples : List (UnackedSegment × Nat)
  midErr : Bool
  deriving Repr

/-- The `while let` loop of `Sender::remote_ack` (sender.rs lines 461 to
478): pop segments from the front while their cumulative length stays within
`remaining`; a segment longer than the bytes remaining is a mid-segment
acknowledgement, reported as an error after the segment was already popped.
For each popped segment with `initial_tx = Some(t)` an RTT sample
`now - t` is fed to the estimator. -/
def ackLoop (queue : List UnackedSegment) (remaining now : Nat) : AckPop :=
  match queue with
  | [] => { queue := [], samples := [], midErr := false }
  | seg :: rest =>
    if remaining < seg.bytes.length then
      { queue := rest, samples := [], midErr := true }
    else
      let rem := remaining - seg.bytes.length
      let samp : List (UnackedSegment × Nat) :=
        match seg.initial_tx with
        | some t => [(seg, now - t)]
        | none => []
      if rem = 0 then { queue := rest, samples := samp, midErr := false }
      else
        let res := ackLoop rest rem now
        { queue := res.queue, samples := samp ++ res.samples,
          midErr := res.midErr }

/-- `Sender::remote_ack` (sender.rs lines 425 to 485).  In the `SentFin`
branch the source asserts `base_seq_no == sent_seq_no == unsent_seq_no`
(true in reachable states; the asserts themselves mutate nothing and are
not modelled).  `congestion_ctrl.algorithm.on_ack_received` mutates only
congestion-control state (sender.rs lines 82 to 298) and none of the fields
modelled here; the congestion-control algorithm of congestion_control.rs is
modelled separately below. -/
def Sender.remote_ack (s : Sender) (ack_seq_no now : Nat) :
    Sender × Option Fail :=
  if s.state = SenderState.SentFin then
    ({ s with state := SenderState.FinAckd }, none)
  else
    let bytes_outstanding := u32sub s.sent_seq_no s.base_seq_no
    let bytes_acknowledged := u32sub ack_seq_no s.base_seq_no
    if bytes_outstanding < bytes_acknowledged then
      (s, some (Fail.Ignored "ACK is outside of send window"))
    else if bytes_acknowledged = 0 then
      (s, none)
    else
      let deadline : Option Nat :=
        if ack_seq_no = s.sent_seq_no then none else some (now + s.rto_estimate)
      let res := ackLoop s.unacked_queue bytes_acknowledged now
      if res.midErr then
        ({ s with
            retransmit_deadline := deadline
            unacked_queue := res.queue
            rto_samples := s.rto_samples ++ res.samples },
          some (Fail.Ignored "ACK is not on segment boundary"))
      else
        ({ s with
            retransmit_deadline := deadline
            unacked_queue := res.queue
            rto_samples := s.rto_samples ++ res.samples
            base_seq_no := u32add s.base_seq_no bytes_acknowledged },
          none)

/-- `Sender::pop_one_unsent_byte` (sender.rs lines 487 to 493).  The source
calls `Bytes::split(1)` on the popped front buffer.  Modelled from the spec:
`Bytes` offers `split(n) -> (head, tail)`; `split` is modelled as
`(take n, drop n)` (the spec does not fix its behaviour when `n` exceeds
the length). -/
def Sender.pop_one_unsent_byte (s : Sender) : Sender × Option (List Nat) :=
  match s.unsent_queue with
  | [] => (s, none)
  | buf :: rest =>
    ({ s with unsent_queue := buf.drop 1 :: rest }, some (buf.take 1))

/-- `Sender::pop_unsent` (sender.rs lines 495 to 505).  Same `Bytes::split`
modelling note as `pop_one_unsent_byte`. -/
def Sender.pop_unsent (s : Sender) (max_bytes : Nat) :
    Sender × Option (List Nat) :=
  match s.unsent_queue with
  | [] => (s, none)
  | buf :: rest =>
    if max_bytes < buf.length then
      ({ s with unsent_queue := buf.drop max_bytes :: rest },
        some (buf.take max_bytes))
    else
      ({ s with unsent_queue := rest }, some buf)

/-- `Sender::update_remote_window` (sender.rs lines 507 to 523).
`checked_shl` returns `None` exactly when the shift amount is at least 32;
the shifted-in value itself wraps. -/
def Sender.update_remote_window (s : Sender) (window_size_hdr : Nat) :
    Sender × Option Fail :=
  if s.state ≠ SenderState.Open then
    (s, some (Fail.Ignored "Dropping remote window update for closed sender"))
  else if 32 ≤ s.window_scale then
    (s, some (Fail.Ignored "Window size overflow"))
  else
    ({ s with window_size := (window_size_hdr * 2 ^ s.window_scale) % u32Mod },
      none)

/-- `RetransmitCause` (retransmitter.rs lines 15 to 18). -/
inductive RetransmitCause where
  | TimeOut
  | FastRetransmit
  deriving DecidableEq, Repr

/-- `retransmit` (retransmitter.rs lines 21 to 54), restricted to its effect
on the Sender fields modelled here: the head segment of `unacked_queue` has
its `initial_tx` cleared (Karn) and the retransmit deadline is reset to
`now + rto.estimate()`.  `rto.record_failure()` (TimeOut cause) mutates only
the abstract estimator.  The source panics when the queue is empty
(`Retransmission timer set with empty acknowledge queue`); that branch is
modelled as leaving the state unchanged.  The ghost flag `retransmitted` of
the head segment is set. -/
def Sender.retransmit (s : Sender) (_cause : RetransmitCause) (now : Nat) :
    Sender :=
  match s.unacked_queue with
  | [] => s
  | seg :: rest =>
    { s with
        unacked_queue :=
          { seg with initial_tx := none, retransmitted := true } :: rest
        retransmit_deadline := some (now + s.rto_estimate) }

/-! Receiver model (receiver.rs). -/

inductive ReceiverState where
  | Open
  | ReceivedFin
  | AckdFin
  deriving DecidableEq, Repr

/-- receiver.rs lines 29 to 55 (the reader waker is not modelled: waking a
task mutates none of the fields below). -/
structure Receiver where
  state : ReceiverState
  base_seq_no : Nat
  recv_queue : List (List Nat)
  ack_seq_no : Nat
  recv_seq_no : Nat
  available : Nat
  ack_deadline : Option Nat
  last_segment_was_full_size : Bool
  acked_last_full_size_segment : Bool
  mss : Nat
  max_window_size : Nat
  deriving DecidableEq, Repr

/-- `Receiver::new` (receiver.rs lines 58 to 73). -/
def Receiver.new (seq_no max_window_size mss : Nat) : Receiver :=
  { state := ReceiverState.Open
    base_seq_no := seq_no
    recv_queue := []
    ack_seq_no := seq_no
    recv_seq_no := seq_no
    available := 0
    ack_deadline := none
    last_segment_was_full_size := false
    acked_last_full_size_segment := false
    mss := mss
    max_window_size := max_window_size }

/-- Delayed ACK deadline offset: 500 ms in the time unit of the model
(nanoseconds), receiver.rs lines 206 and 212. -/
def ackDelay : Nat := 500000000

/-- `Receiver::receive_data` (receiver.rs lines 163 to 218). -/
def Receiver.receive_data (r : Receiver) (seq_no : Nat) (buf : List Nat)
    (now : Nat) : Receiver × Option Fail :=
  let buf_len := buf.length
  if r.state ≠ ReceiverState.Open then
    (r, some (Fail.ResourceNotFound "Receiver closed"))
  else if r.recv_seq_no ≠ seq_no then
    (r, some (Fail.Ignored "Out of order segment"))
  else
    let unread_bytes := (r.recv_queue.map List.length).sum
    if r.max_window_size < unread_bytes + buf_len then
      (r, some (Fail.Ignored "Full receive window"))
    else
      let r1 := { r with
        recv_seq_no := u32add r.recv_seq_no (buf_len % u32Mod)
        available := r.available + buf_len
        recv_queue := r.recv_queue ++ [buf] }
      let r2 :=
        if buf_len = r.mss ∧ r.last_segment_was_full_size
            ∧ ¬ r.acked_last_full_size_segment then
          { r1 with
              acked_last_full_size_segment := true
              ack_deadline := some now }
        else if buf_len = r.mss then
          { r1 with
              last_segment_was_full_size := true
              acked_last_full_size_segment := false
              ack_deadline :=
                match r1.ack_deadline with
                | none => some (now + ackDelay)
                | some d => some d }
        else if r1.ack_deadline = none then
          { r1 with
              last_segment_was_full_size := false
              ack_deadline := some (now + ackDelay) }
        else
          { r1 with last_segment_was_full_size := false }
      (r2, none)

/-! Event traces over the Sender.  A trace replays the operations that the
fast path, the control block and the retransmitter task perform on a
Sender, which is how the reachable-state claims C1 and C8 are stated. -/

inductive SenderEvent where
  | send (buf : List Nat) (arp : Bool) (now : Nat)
  | remoteAck (ack_seq_no now : Nat)
  | retransmit (cause : RetransmitCause) (now : Nat)
  | close
  | updateRemoteWindow (window_size_hdr : Nat)
  | popUnsent (max_bytes : Nat)
  | popOneUnsentByte
  deriving Repr

/-- One Sender operation together with its returned `Fail` (if any). -/
def senderStep (s : Sender) (e : SenderEvent) : Sender × Option Fail :=
  match e with
  | SenderEvent.send buf arp now => s.send buf arp now
  | SenderEvent.remoteAck ack now => s.remote_ack ack now
  | SenderEvent.retransmit cause now => (s.retransmit cause now, none)
  | SenderEvent.close => s.close
  | SenderEvent.updateRemoteWindow hdr => s.update_remote_window hdr
  | SenderEvent.popUnsent max_bytes => ((s.pop_unsent max_bytes).1, none)
  | SenderEvent.popOneUnsentByte => ((s.pop_one_unsent_byte).1, none)

/-- Replay a trace of Sender operations. -/
def runSender (s : Sender) : List SenderEvent → Sender
  | [] => s
  | e :: es => runSender (senderStep s e).1 es

/-- A trace is clean when no operation along it reported the mid-segment
acknowledgement error. -/
def cleanRun (s : Sender) : List SenderEvent → Bool
  | [] => true
  | e :: es =>
    decide ((senderStep s e).2
        ≠ some (Fail.Ignored "ACK is not on segment boundary"))
      && cleanRun (senderStep s e).1 es

/-! CUBIC congestion control (congestion_control.rs). -/

/-- congestion_control.rs lines 141 to 164.  `WatchedValue` and `Cell`
fields are plain values here; `Instant` and `Duration` fields are `Nat`. -/
structure Cubic where
  mss : Nat
  ca_start : Nat
  cwnd : Nat
  fast_convergence : Bool
  initial_cwnd : Nat
  last_send_time : Nat
  last_congestion_was_rto : Bool
  retransmitted_packets_in_flight : Nat
  rtt_at_last_send : Nat
  ssthresh : Nat
  w_max : Nat
  duplicate_ack_count : Nat
  fast_retransmit_now : Bool
  in_fast_recovery : Bool
  prev_ack_seq_no : Nat
  recover : Nat
  limited_transmit_cwnd_increase : Nat
  deriving DecidableEq, Repr

/-- `Cubic::DUP_ACK_THRESHOLD` (congestion_control.rs line 209). -/
def dupAckThreshold : Nat := 3

/-- `<Cubic as CongestionControl>::new` (congestion_control.rs lines 166 to
201).  `now` is the value of the two `Instant::now()` calls;
`fast_convergence` is the option value (default `true`).  The default
`rtt_at_last_send` is 1 s. -/
def Cubic.new (mss seq_no : Nat) (fast_convergence : Bool) (now : Nat) :
    Cubic :=
  let initial_cwnd :=
    if mss ≤ 1095 then 4 * mss else if mss ≤ 2190 then 3 * mss else 2 * mss
  { mss := mss
    ca_start := now
    cwnd := initial_cwnd
    fast_convergence := fast_convergence
    initial_cwnd := initial_cwnd
    last_send_time := now
    last_congestion_was_rto := false
    retransmitted_packets_in_flight := 0
    rtt_at_last_send := 1000000000
    ssthresh := u32Mod - 1
    w_max := 0
    duplicate_ack_count := 0
    fast_retransmit_now := false
    in_fast_recovery := false
    prev_ack_seq_no := seq_no
    recover := seq_no
    limited_transmit_cwnd_increase := 0 }

/-- `Cubic::fast_convergence` (congestion_control.rs lines 211 to 221). -/
def Cubic.applyFastConvergence (c : Cubic) : Cubic :=
  if c.cwnd / c.mss < c.w_max / c.mss then
    { c with w_max := halfOnePlusBetaF32 c.cwnd }
  else
    { c with w_max := c.cwnd }

/-- `Cubic::calculate_limited_transmit_cwnd_increase` (congestion_control.rs
lines 223 to 231). -/
def Cubic.calculate_limited_transmit_cwnd_increase (c : Cubic) : Cubic :=
  let inc :=
    if c.duplicate_ack_count < dupAckThreshold then
      (c.mss * c.duplicate_ack_count) % u32Mod
    else 0
  { c with limited_transmit_cwnd_increase := inc }

/-- `Cubic::increment_dup_ack_count` (congestion_control.rs lines 233 to
239). -/
def Cubic.increment_dup_ack_count (c : Cubic) : Cubic :=
  Cubic.calculate_limited_transmit_cwnd_increase
    { c with duplicate_ack_count := c.duplicate_ack_count + 1 }

/-- `Cubic::on_dup_ack_received` (congestion_control.rs lines 241 to 276).
Reads `sender.sent_seq_no` only.  `ack_seq_no - Wrapping(1)` wraps;
comparisons on `SeqNumber = Wrapping<u32>` use the derived unsigned order. -/
def Cubic.on_dup_ack_received (c : Cubic) (sender : Sender)
    (ack_seq_no : Nat) : Cubic :=
  let c1 := c.increment_dup_ack_count
  let duplicate_ack_count := c1.duplicate_ack_count
  let prev_ack_seq_no := c1.prev_ack_seq_no
  let ack_seq_no_diff :=
    if prev_ack_seq_no < ack_seq_no then ack_seq_no - prev_ack_seq_no
    else (ack_seq_no + 1 + ((u32Mod - 1) - prev_ack_seq_no)) % u32Mod
  let cwnd := c1.cwnd
  let ack_covers_recover := c1.recover < u32sub ack_seq_no 1
  let retransmitted_packet_dropped_heuristic :=
    c1.mss < cwnd ∧ ack_seq_no_diff ≤ (4 * c1.mss) % u32Mod
  if duplicate_ack_count = dupAckThreshold
      ∧ (ack_covers_recover ∨ retransmitted_packet_dropped_heuristic) then
    let c2 := { c1 with in_fast_recovery := true,
                        recover := sender.sent_seq_no }
    let reduced_cwnd := mulBetaF32 cwnd
    let c3 := if c2.fast_convergence then c2.applyFastConvergence
              else { c2 with w_max := cwnd }
    { c3 with
        ssthresh := max reduced_cwnd ((2 * c3.mss) % u32Mod)
        cwnd := reduced_cwnd
        fast_retransmit_now := true }
  else if dupAckThreshold < duplicate_ack_count ∨ c1.in_fast_recovery then
    { c1 with cwnd := u32add c1.cwnd c1.mss }
  else c1

/-- `Cubic::on_ack_received_fast_recovery` (congestion_control.rs lines 278
to 302).  Reads `sender.sent_seq_no` and `sender.base_seq_no`; `now` is the
`Instant::now()` of the full-acknowledgement branch. -/
def Cubic.on_ack_received_fast_recovery (c : Cubic) (sender : Sender)
    (ack_seq_no now : Nat) : Cubic :=
  let bytes_outstanding := u32sub sender.sent_seq_no sender.base_seq_no
  let bytes_acknowledged := u32sub ack_seq_no sender.base_seq_no
  if c.recover < ack_seq_no then
    { c with
        cwnd := min c.ssthresh (u32add (max bytes_outstanding c.mss) c.mss)
        ca_start := now
        last_congestion_was_rto := false
        in_fast_recovery := false }
  else
    let c1 := { c with fast_retransmit_now := true }
    if c.mss ≤ bytes_acknowledged then
      { c1 with cwnd := u32add (u32sub c1.cwnd bytes_acknowledged) c1.mss }
    else
      { c1 with cwnd := u32sub c1.cwnd bytes_acknowledged }

/-- Oracle for the floating-point congestion-avoidance window computation of
`Cubic::on_ack_received_ss_ca` (congestion_control.rs lines 334 to 348).
That branch evaluates `w_cubic`, `w_est` and `k` in `f32` from the elapsed
time `ca_start.elapsed()` (a second hidden `Instant::now()`), the current
RTO estimate and `w_max`; `k` uses `f32::cbrt`, whose rounding comes from
the platform libm and is not exactly specified, so the branch result is
modelled as an oracle taking the Cubic state, the sender and the
acknowledged sequence number.  Every theorem below either quantifies over
the oracle or evaluates inputs that do not reach this branch. -/
structure F32Env where
  caCwnd : Cubic → Sender → Nat → Nat

/-- `Cubic::on_ack_received_ss_ca` (congestion_control.rs lines 325 to 349).
The slow-start branch (`cwnd < ssthresh`) is exact integer arithmetic; the
congestion-avoidance branch is the `F32Env` oracle. -/
def Cubic.on_ack_received_ss_ca (env : F32Env) (c : Cubic) (sender : Sender)
    (ack_seq_no : Nat) : Cubic :=
  let bytes_acknowledged := u32sub ack_seq_no sender.base_seq_no
  if c.cwnd < c.ssthresh then
    { c with cwnd := u32add c.cwnd (min bytes_acknowledged c.mss) }
  else
    { c with cwnd := env.caCwnd c sender ack_seq_no }

/-- `Cubic::on_rto_ss_ca` (congestion_control.rs lines 351 to 375). -/
def Cubic.on_rto_ss_ca (c : Cubic) : Cubic :=
  let cwnd := c.cwnd
  let c1 := if c.fast_convergence then c.applyFastConvergence
            else { c with w_max := cwnd }
  let c2 := { c1 with cwnd := mulBetaF32 cwnd }
  let rpif := c2.retransmitted_packets_in_flight
  let c3 :=
    if rpif = 0 then
      { c2 with ssthresh := max (mulBetaF32 cwnd) ((2 * c2.mss) % u32Mod) }
    else c2
  { c3 with
      retransmitted_packets_in_flight := (rpif + 1) % u32Mod
      last_congestion_was_rto := true }

/-- `Cubic::on_rto_fast_recovery` (congestion_control.rs lines 377 to
381). -/
def Cubic.on_rto_fast_recovery (c : Cubic) (sender : Sender) : Cubic :=
  { c with recover := sender.sent_seq_no, in_fast_recovery := false }

/-- `<Cubic as SlowStartCongestionAvoidanceAlgorithm>::on_rto`
(congestion_control.rs lines 422 to 426). -/
def Cubic.on_rto (c : Cubic) (sender : Sender) : Cubic :=
  (c.on_rto_ss_ca).on_rto_fast_recovery sender

/-- `<Cubic as SlowStartCongestionAvoidanceAlgorithm>::on_ack_received`
(congestion_control.rs lines 401 to 420).  On an acknowledgement of new
data the source executes
`self.retransmitted_packets_in_flight.set(self.retransmitted_packets_in_flight.get() - 1)`:
plain `u32` subtraction, which wraps in release builds (and panics in debug
builds) when the counter is zero.  `now` feeds the fast-recovery branch. -/
def Cubic.on_ack_received (env : F32Env) (c : Cubic) (sender : Sender)
    (ack_seq_no now : Nat) : Cubic :=
  let bytes_acknowledged := u32sub ack_seq_no sender.base_seq_no
  if bytes_acknowledged = 0 then
    c.on_dup_ack_received sender ack_seq_no
  else
    let c1 := Cubic.calculate_limited_transmit_cwnd_increase
      { c with duplicate_ack_count := 0 }
    let c2 := { c1 with
      retransmitted_packets_in_flight :=
        u32sub c1.retransmitted_packets_in_flight 1 }
    let c3 :=
      if c2.in_fast_recovery then
        c2.on_ack_received_fast_recovery sender ack_seq_no now
      else
        Cubic.on_ack_received_ss_ca env c2 sender ack_seq_no
    { c3 with prev_ack_seq_no := ack_seq_no }

/-- `<Cubic as SlowStartCongestionAvoidanceAlgorithm>::on_cwnd_check_before_send`
(congestion_control.rs lines 388 to 394).  The source computes
`self.last_send_time.get().duration_since(Instant::now())`:
`Instant::duration_since` returns the zero duration whenever its argument is
later than `self`, so with `now` the current instant the computed idle time
is the saturating difference `last_send_time - now`. -/
def Cubic.on_cwnd_check_before_send (c : Cubic) (now : Nat) : Cubic :=
  let long_time_since_send := c.rtt_at_last_send < c.last_send_time - now
  if long_time_since_send then
    { c with cwnd := min c.initial_cwnd c.cwnd }
  else c

/-- `<Cubic as SlowStartCongestionAvoidanceAlgorithm>::on_send`
(congestion_control.rs lines 396 to 399). -/
def Cubic.on_send (c : Cubic) (sender : Sender) (now : Nat) : Cubic :=
  { c with last_send_time := now, rtt_at_last_send := sender.rto_estimate }

/-! ARP cache (protocols/arp/cache/mod.rs).  IPv4 addresses and MAC
addresses are modelled as `Nat`. -/

/-- Modelled from the spec: `HashTtlCache` (its source is not under src/)
is a TTL-bounded mapping; an entry is a key, a value and an optional expiry
instant, and `get` returns only entries that have not expired at the cache
clock (`advance_clock(now)` moves the clock). -/
structure TtlEntry where
  key : Nat
  record_link_addr : Nat
  expiry : Option Nat
  deriving DecidableEq, Repr

/-- Whether an entry is live at clock time `clock`. -/
def TtlEntry.live (e : TtlEntry) (clock : Nat) : Bool :=
  match e.expiry with
  | none => true
  | some t => decide (clock < t)

/-- cache/mod.rs lines 26 to 33.  The reverse map is not needed by the
claim and is omitted; `waiters` keeps the addresses that have a pending
resolution waiter (the oneshot channel itself carries no state the claim
observes). -/
structure ArpCache where
  cache : List TtlEntry
  clock : Nat
  waiters : List Nat
  deriving DecidableEq, Repr

/-- Modelled from the spec: `HashTtlCache::get`, returning the record of an
unexpired entry for the key. -/
def ArpCache.cacheGet (c : ArpCache) (ipv4_addr : Nat) : Option Nat :=
  (c.cache.find? (fun e => e.key = ipv4_addr ∧ e.live c.clock)).map
    (fun e => e.record_link_addr)

/-- Outcome of `ArpCache::wait_link_addr`: the returned future is either
already complete (the address was cached and the oneshot was sent before
returning), or pending with a waiter registered; registering a second
waiter for the same address fails the
`assert!(self.waiters.insert(ipv4_addr, tx).is_none())` precondition. -/
inductive WaitOutcome where
  | immediate (link_addr : Nat)
  | pending
  | panicked
  deriving DecidableEq, Repr

/-- `ArpCache::wait_link_addr` (cache/mod.rs lines 100 to 108). -/
def ArpCache.wait_link_addr (c : ArpCache) (ipv4_addr : Nat) :
    ArpCache × WaitOutcome :=
  match c.cacheGet ipv4_addr with
  | some link_addr => (c, WaitOutcome.immediate link_addr)
  | none =>
    if ipv4_addr ∈ c.waiters then (c, WaitOutcome.panicked)
    else ({ c with waiters := ipv4_addr :: c.waiters }, WaitOutcome.pending)

/-! Helper lemmas. -/

@[simp] theorem unackedLen_nil : unackedLen [] = 0 := rfl

@[simp] theorem unackedLen_cons (seg : UnackedSegment) (q : List UnackedSegment) :
    unackedLen (seg :: q) = seg.bytes.length + unackedLen q := by
  simp [unackedLen]

theorem unackedLen_append (q q' : List UnackedSegment) :
    unackedLen (q ++ q') = unackedLen q + unackedLen q' := by
  simp [unackedLen]

theorem applyFastConvergence_mss (c : Cubic) :
    (c.applyFastConvergence).mss = c.mss := by
  unfold Cubic.applyFastConvergence
  split <;> rfl

theorem applyFastConvergence_ssthresh (c : Cubic) :
    (c.applyFastConvergence).ssthresh = c.ssthresh := by
  unfold Cubic.applyFastConvergence
  split <;> rfl

theorem applyFastConvergence_rpif (c : Cubic) :
    (c.applyFastConvergence).retransmitted_packets_in_flight
      = c.retransmitted_packets_in_flight := by
  unfold Cubic.applyFastConvergence
  split <;> rfl

theorem fast_recovery_rpif (c : Cubic) (sender : Sender) (ack now : Nat) :
    (c.on_ack_received_fast_recovery sender ack now).retransmitted_packets_in_flight
      = c.retransmitted_packets_in_flight := by
  unfold Cubic.on_ack_received_fast_recovery
  dsimp only
  split
  · rfl
  · split <;> rfl

theorem ss_ca_rpif (env : F32Env) (c : Cubic) (sender : Sender) (ack : Nat) :
    (Cubic.on_ack_received_ss_ca env c sender ack).retransmitted_packets_in_flight
      = c.retransmitted_packets_in_flight := by
  unfold Cubic.on_ack_received_ss_ca
  split <;> rfl

/-- An arbitrary oracle instantiation, used only in closed statements whose
truth the corresponding general theorem establishes for every oracle. -/
def dummyF32Env : F32Env := { caCwnd := fun _ _ _ => 0 }

/-- Claim C2.  In the source the idle check computes
`last_send_time.duration_since(Instant::now())`, which is the zero duration
whenever the last send lies in the past; the branch condition
`> rtt_at_last_send` is therefore never satisfied in any execution, and
`on_cwnd_check_before_send` never changes `cwnd` — contradicting the
claimed idle restart `cwnd := min(initial_cwnd, cwnd)` for senders idle
longer than `rtt_at_last_send`. -/
theorem c2_idle_check_never_fires (c : Cubic) (now : Nat)
    (h : c.last_send_time ≤ now) :
    Cubic.on_cwnd_check_before_send c now = c := by
  unfold Cubic.on_cwnd_check_before_send
  simp [Nat.sub_eq_zero_of_le h]

/-- Witness for C2: the sender of spec scenario 6 (`cwnd = 16·mss`, idle
for 3 s with `rtt_at_last_send = 1 s`, so the claim demands
`cwnd := initial_cwnd = 4000`), on which the check leaves the state — in
particular `cwnd = 16000` — untouched. -/
theorem c2_idle_check_never_fires_witness :
    ({ Cubic.new 1000 1000 true 0 with cwnd := 16000 }.last_send_time
        ≤ 3000000000) ∧
    Cubic.on_cwnd_check_before_send
        { Cubic.new 1000 1000 true 0 with cwnd := 16000 } 3000000000
      = { Cubic.new 1000 1000 true 0 with cwnd := 16000 } :=
  ⟨by decide, c2_idle_check_never_fires _ _ (by decide)⟩

/-- Claim C4.  On an acknowledgement of new data with
`retransmitted_packets_in_flight = 0`, the source decrement
`retransmitted_packets_in_flight.set(... - 1)` underflows: it wraps to
`u32::MAX` (and panics in debug builds) instead of saturating to 0 as the
claim states.  Holds for every congestion-avoidance oracle since the
decrement precedes the branch and neither branch touches the counter. -/
theorem c4_rpif_decrement_wraps (env : F32Env) (c : Cubic) (sender : Sender)
    (ack now : Nat) (hnew : u32sub ack sender.base_seq_no ≠ 0)
    (h0 : c.retransmitted_packets_in_flight = 0) :
    (Cubic.on_ack_received env c sender ack now).retransmitted_packets_in_flight
      = u32Mod - 1 := by
  unfold Cubic.on_ack_received
  rw [if_neg hnew]
  simp only []
  split
  · rw [fast_recovery_rpif]
    simp [Cubic.calculate_limited_transmit_cwnd_increase, h0]
    decide
  · rw [ss_ca_rpif]
    simp [Cubic.calculate_limited_transmit_cwnd_increase, h0]
    decide

/-- Witness for C4: a freshly constructed CUBIC state (counter 0) receiving
the very first acknowledgement of new data. -/
theorem c4_rpif_decrement_wraps_witness :
    (u32sub 2000 (Sender.new 1000 65535 0 1000).base_seq_no ≠ 0) ∧
    ((Cubic.new 1000 1000 true 0).retransmitted_packets_in_flight = 0) ∧
    (Cubic.on_ack_received dummyF32Env (Cubic.new 1000 1000 true 0)
        (Sender.new 1000 65535 0 1000) 2000 0).retransmitted_packets_in_flight
      = u32Mod - 1 :=
  ⟨by decide, by decide,
    c4_rpif_decrement_wraps dummyF32Env _ _ 2000 0 (by decide) (by decide)⟩

/-- Claim C5, amended: in state `SentFin` the source transitions to
`FinAckd` and returns `Ok(())` for EVERY acknowledgement number — it never
inspects `ack_seq_no` (sender.rs lines 426 to 431 only assert the sequence
numbers agree and set the state). -/
theorem c5_sentfin_any_ack (s : Sender) (ack now : Nat)
    (h : s.state = SenderState.SentFin) :
    s.remote_ack ack now = ({ s with state := SenderState.FinAckd }, none) := by
  unfold Sender.remote_ack
  rw [if_pos h]

/-- Counterexample to C5 as stated: a sender in `SentFin` with
`base = sent = unsent = 2000` (the FIN occupies 2000, so only
`ack_seq = 2001` acknowledges it) receives `remote_ack(2000)`; the claim
says the state must remain `SentFin`, but the call transitions to
`FinAckd` and returns success. -/
theorem c5_counterexample :
    (({ Sender.new 2000 65535 0 1000 with
        state := SenderState.SentFin } : Sender).remote_ack 2000 0).1.state
        = SenderState.FinAckd ∧
    (({ Sender.new 2000 65535 0 1000 with
        state := SenderState.SentFin } : Sender).remote_ack 2000 0).2
        = none := by
  constructor <;> decide

/-- Witness for the amended C5 at a concrete `SentFin` sender and the
acknowledgement `2001` that does acknowledge the FIN. -/
theorem c5_sentfin_any_ack_witness :
    ({ Sender.new 2000 65535 0 1000 with
        state := SenderState.SentFin } : Sender).state
        = SenderState.SentFin ∧
    ({ Sender.new 2000 65535 0 1000 with
        state := SenderState.SentFin } : Sender).remote_ack 2001 5
      = ({ Sender.new 2000 65535 0 1000 with
            state := SenderState.FinAckd }, none) :=
  ⟨by decide, c5_sentfin_any_ack _ 2001 5 (by decide)⟩

/-- Claim C9: when the cache holds an unexpired entry for the address,
`wait_link_addr` completes at once with the cached MAC, leaves the cache —
waiters included — untouched, and cannot reach the single-waiter assert. -/
theorem c9_wait_link_addr_cached (c : ArpCache) (ipv4_addr link_addr : Nat)
    (h : c.cacheGet ipv4_addr = some link_addr) :
    c.wait_link_addr ipv4_addr = (c, WaitOutcome.immediate link_addr) := by
  unfold ArpCache.wait_link_addr
  rw [h]

/-- Witness for C9: cache holding `7 ↦ 42` with expiry 10 at clock 3, while
a waiter for a different address (9) is pending. -/
theorem c9_wait_link_addr_cached_witness :
    (({ cache := [{ key := 7, record_link_addr := 42, expiry := some 10 }],
        clock := 3, waiters := [9] } : ArpCache).cacheGet 7 = some 42) ∧
    ({ cache := [{ key := 7, record_link_addr := 42, expiry := some 10 }],
        clock := 3, waiters := [9] } : ArpCache).wait_link_addr 7
      = ({ cache := [{ key := 7, record_link_addr := 42, expiry := some 10 }],
            clock := 3, waiters := [9] }, WaitOutcome.immediate 42) :=
  ⟨by decide, c9_wait_link_addr_cached _ 7 42 (by decide)⟩

/-- Claim C10, amended.  `pop_unsent(max_bytes)` returns `none` exactly on
the empty queue, and otherwise a buffer of at most `max_bytes` bytes whose
concatenation with the remaining queued byte stream is the original queued
byte stream (so it is an initial run of the stream, with no byte lost,
duplicated or reordered).  `pop_one_unsent_byte` enjoys the same
concatenation property with a buffer of `min 1 (front buffer length)`
bytes — one byte whenever the front buffer is nonempty, but the empty
buffer when an empty `Bytes` sits at the head of the queue. -/
theorem c10_pop_unsent_spec (s : Sender) (max_bytes : Nat) :
    ((s.pop_unsent max_bytes).2 = none ↔ s.unsent_queue = []) ∧
    (∀ b, (s.pop_unsent max_bytes).2 = some b →
      b.length ≤ max_bytes ∧
      b ++ ((s.pop_unsent max_bytes).1.unsent_queue).flatten
        = s.unsent_queue.flatten) ∧
    ((s.pop_one_unsent_byte).2 = none ↔ s.unsent_queue = []) ∧
    (∀ b, (s.pop_one_unsent_byte).2 = some b →
      b.length = min 1 (s.unsent_queue.headD []).length ∧
      b ++ ((s.pop_one_unsent_byte).1.unsent_queue).flatten
        = s.unsent_queue.flatten) := by
  refine ⟨?_, ?_, ?_, ?_⟩
  · unfold Sender.pop_unsent
    match h : s.unsent_queue with
    | [] => simp
    | buf :: rest =>
      constructor
      · intro hc
        by_cases hlen : max_bytes < buf.length <;> simp [hlen] at hc
      · intro hc
        exact absurd hc (by simp)
  · intro b hb
    rcases h : s.unsent_queue with _ | ⟨buf, rest⟩
    · simp [Sender.pop_unsent, h] at hb
    · by_cases hlen : max_bytes < buf.length
      · simp only [Sender.pop_unsent, h, if_pos hlen, Option.some_inj] at hb
        subst hb
        simp only [Sender.pop_unsent, h, if_pos hlen]
        constructor
        · simpa using Nat.le_of_lt hlen
        · rw [List.flatten, ← List.append_assoc, List.take_append_drop]
          rfl
      · simp only [Sender.pop_unsent, h, if_neg hlen, Option.some_inj] at hb
        subst hb
        simp only [Sender.pop_unsent, h, if_neg hlen]
        exact ⟨Nat.not_lt.mp hlen, rfl⟩
  · rcases h : s.unsent_queue with _ | ⟨buf, rest⟩
    · simp [Sender.pop_one_unsent_byte, h]
    · simp [Sender.pop_one_unsent_byte, h]
  · intro b hb
    rcases h : s.unsent_queue with _ | ⟨buf, rest⟩
    · simp [Sender.pop_one_unsent_byte, h] at hb
    · simp only [Sender.pop_one_unsent_byte, h, Option.some_inj] at hb
      subst hb
      simp only [Sender.pop_one_unsent_byte, h]
      refine ⟨by simp [List.length_take], ?_⟩
      rw [List.flatten, ← List.append_assoc, List.take_append_drop]
      rfl

/-- Counterexample to C10 as stated: with a single empty `Bytes` queued
(`unsent_queue = [[]]`), `pop_one_unsent_byte` neither returns `None` (the
queue is nonempty) nor a one-byte buffer — it returns the empty buffer
(under the modelled `split(1) = (take 1, drop 1)`; the real `Bytes::split`
is not under src/ and would fault on an index past the end). -/
theorem c10_counterexample :
    (({ Sender.new 0 65535 0 1000 with
        unsent_queue := [[]] } : Sender).pop_one_unsent_byte).2 = some [] ∧
    ([] : List Nat).length ≠ 1 := by
  refine ⟨by decide, by decide⟩

/-- Witness for the amended C10 at a concrete sender with
`unsent_queue = [[5,6,7],[8]]` and `max_bytes = 2`. -/
theorem c10_pop_unsent_spec_witness :
    ((({ Sender.new 0 65535 0 1000 with
        unsent_queue := [[5, 6, 7], [8]] } : Sender).pop_unsent 2).2
      = some [5, 6]) ∧
    [5, 6] ++ ((({ Sender.new 0 65535 0 1000 with
        unsent_queue := [[5, 6, 7], [8]] } : Sender).pop_unsent
          2).1.unsent_queue).flatten
      = ([[5, 6, 7], [8]] : List (List Nat)).flatten := by
  refine ⟨by decide, ?_⟩
  have h := (c10_pop_unsent_spec
    { Sender.new 0 65535 0 1000 with unsent_queue := [[5, 6, 7], [8]] } 2).2.1
    [5, 6] (by decide)
  exact h.2

/-- Claim C6: a full-size segment accepted while the previous accepted
segment was full-size (`last_segment_was_full_size`) and still
unacknowledged (`!acked_last_full_size_segment`) schedules an immediate
acknowledgement: `ack_deadline = Some(now)` for the arrival time `now` of
the second segment. -/
theorem c6_second_full_size_immediate_ack (r : Receiver) (seq : Nat)
    (buf : List Nat) (now : Nat)
    (hopen : r.state = ReceiverState.Open)
    (hseq : r.recv_seq_no = seq)
    (hfit : (r.recv_queue.map List.length).sum + buf.length
      ≤ r.max_window_size)
    (hfull : buf.length = r.mss)
    (hprev : r.last_segment_was_full_size = true)
    (hunacked : r.acked_last_full_size_segment = false) :
    (r.receive_data seq buf now).1.ack_deadline = some now ∧
    (r.receive_data seq buf now).2 = none := by
  unfold Receiver.receive_data
  rw [if_neg (by simp [hopen]), if_neg (by simp [hseq]),
    if_neg (Nat.not_lt.mpr hfit)]
  simp [hfull, hprev, hunacked]

/-- Witness for C6, following spec scenario 4 scaled to `mss = 4`: a fresh
receiver accepts a full-size segment at `t = 0` and a second full-size
segment at `t = 5`; the deadline after the second is exactly 5. -/
theorem c6_second_full_size_immediate_ack_witness :
    ((((Receiver.new 0 16 4).receive_data 0 [0, 0, 0, 0] 0).1.receive_data
        4 [1, 1, 1, 1] 5).1.ack_deadline = some 5) ∧
    ((((Receiver.new 0 16 4).receive_data 0 [0, 0, 0, 0] 0).1.receive_data
        4 [1, 1, 1, 1] 5).2 = none) :=
  c6_second_full_size_immediate_ack _ 4 [1, 1, 1, 1] 5 (by decide) (by decide)
    (by decide) (by decide) (by decide) (by decide)

/-- Claim C7: the three failure cases of `receive_data` — receiver not
Open (`ResourceNotFound`), sequence number off the expected seam
(`Ignored`), and receive window overrun (`Ignored`) — and in each the
entire receiver state is returned unchanged. -/
theorem c7_receive_data_failures (r : Receiver) (seq : Nat) (buf : List Nat)
    (now : Nat) :
    (r.state ≠ ReceiverState.Open →
      r.receive_data seq buf now
        = (r, some (Fail.ResourceNotFound "Receiver closed"))) ∧
    (r.state = ReceiverState.Open → r.recv_seq_no ≠ seq →
      r.receive_data seq buf now
        = (r, some (Fail.Ignored "Out of order segment"))) ∧
    (r.state = ReceiverState.Open → r.recv_seq_no = seq →
      r.max_window_size < (r.recv_queue.map List.length).sum + buf.length →
      r.receive_data seq buf now
        = (r, some (Fail.Ignored "Full receive window"))) := by
  refine ⟨?_, ?_, ?_⟩
  · intro h
    unfold Receiver.receive_data
    rw [if_pos h]
  · intro hopen hseq
    unfold Receiver.receive_data
    rw [if_neg (by simp [hopen]), if_pos hseq]
  · intro hopen hseq hover
    unfold Receiver.receive_data
    rw [if_neg (by simp [hopen]), if_neg (by simp [hseq]), if_pos hover]

/-- Witness for C7, exercising all three failure cases concretely: a
receiver in `ReceivedFin`, an out-of-order segment, and spec scenario 5
(queue already holding `max_window_size` bytes, one further byte). -/
theorem c7_receive_data_failures_witness :
    (({ Receiver.new 0 16 4 with
        state := ReceiverState.ReceivedFin } : Receiver).receive_data 0 [9] 1
      = ({ Receiver.new 0 16 4 with state := ReceiverState.ReceivedFin },
          some (Fail.ResourceNotFound "Receiver closed"))) ∧
    ((Receiver.new 0 16 4).receive_data 7 [9] 1
      = (Receiver.new 0 16 4, some (Fail.Ignored "Out of order segment"))) ∧
    (({ Receiver.new 0 4 4 with
        recv_queue := [[0, 0, 0, 0]] } : Receiver).receive_data 0 [9] 1
      = ({ Receiver.new 0 4 4 with recv_queue := [[0, 0, 0, 0]] },
          some (Fail.Ignored "Full receive window"))) :=
  ⟨(c7_receive_data_failures _ 0 [9] 1).1 (by decide),
    (c7_receive_data_failures _ 7 [9] 1).2.1 (by decide) (by decide),
    (c7_receive_data_failures _ 0 [9] 1).2.2 (by decide) (by decide)
      (by decide)⟩

theorem on_rto_ss_ca_ssthresh (c : Cubic)
    (h0 : c.retransmitted_packets_in_flight = 0) :
    (c.on_rto_ss_ca).ssthresh
      = max (mulBetaF32 c.cwnd) ((2 * c.mss) % u32Mod) := by
  unfold Cubic.on_rto_ss_ca
  dsimp only
  split
  · simp [applyFastConvergence_rpif, applyFastConvergence_mss, h0]
  · simp [h0]

/-- Claim C3, amended.  Both reduction branches that update `ssthresh` —
the duplicate-ACK-threshold entry into fast recovery and `on_rto` with no
retransmitted packet in flight — set
`ssthresh := max(β-reduced cwnd, 2·mss)`, so the resulting SSTHRESH is at
least `2·mss`; the resulting CWND, however, is set to the β-reduced value
itself, unclamped, and can fall below `2·mss`. -/
theorem c3_reduction_ssthresh_floor (c : Cubic) (sender : Sender) (ack : Nat)
    (hm : 2 * c.mss < u32Mod) :
    (c.duplicate_ack_count + 1 = dupAckThreshold →
      (c.recover < u32sub ack 1 ∨
        (c.mss < c.cwnd ∧
          (if c.prev_ack_seq_no < ack then ack - c.prev_ack_seq_no
            else (ack + 1 + ((u32Mod - 1) - c.prev_ack_seq_no)) % u32Mod)
            ≤ (4 * c.mss) % u32Mod)) →
      (c.on_dup_ack_received sender ack).ssthresh
          = max (mulBetaF32 c.cwnd) (2 * c.mss) ∧
        (c.on_dup_ack_received sender ack).cwnd = mulBetaF32 c.cwnd ∧
        2 * c.mss ≤ (c.on_dup_ack_received sender ack).ssthresh) ∧
    (c.retransmitted_packets_in_flight = 0 →
      (c.on_rto sender).ssthresh = max (mulBetaF32 c.cwnd) (2 * c.mss) ∧
        2 * c.mss ≤ (c.on_rto sender).ssthresh) := by
  constructor
  · intro hdup hcond
    unfold Cubic.on_dup_ack_received
    dsimp only [Cubic.increment_dup_ack_count,
      Cubic.calculate_limited_transmit_cwnd_increase]
    rw [if_pos ⟨hdup, hcond⟩]
    have hmod : (2 * c.mss) % u32Mod = 2 * c.mss := Nat.mod_eq_of_lt hm
    refine ⟨?_, ?_, ?_⟩
    · split
      · simp [applyFastConvergence_mss, hmod]
      · simp [hmod]
    · split <;> rfl
    · split
      · simp [applyFastConvergence_mss, hmod, Nat.le_max_right]
      · simp [hmod, Nat.le_max_right]
  · intro h0
    have h1 : (c.on_rto sender).ssthresh = (c.on_rto_ss_ca).ssthresh := rfl
    rw [h1, on_rto_ss_ca_ssthresh c h0, Nat.mod_eq_of_lt hm]
    exact ⟨rfl, Nat.le_max_right _ _⟩

/-- A CUBIC state one duplicate ACK short of the threshold with
`cwnd = 2·mss = 2000` (reachable after earlier reductions from the initial
`cwnd = 4·mss`). -/
def c3CubicState : Cubic :=
  { Cubic.new 1000 1000 true 0 with
      cwnd := 2000, duplicate_ack_count := 2,
      prev_ack_seq_no := 5000, recover := 1000 }

/-- The sender observed by `c3CubicState`. -/
def c3SenderState : Sender :=
  { Sender.new 1000 65535 0 1000 with
      base_seq_no := 5000, sent_seq_no := 9000 }

/-- Counterexample to C3 as stated: the third duplicate ACK (of 5000) at
`cwnd = 2000`, `mss = 1000` enters fast recovery and updates
`ssthresh := max(1400, 2000) = 2000`, but sets `cwnd := 1400 < 2·mss`
(where 1400 is the exact binary32 value of `2000·0.7` truncated). -/
theorem c3_counterexample :
    (Cubic.on_ack_received dummyF32Env c3CubicState c3SenderState 5000
        0).in_fast_recovery = true ∧
    (Cubic.on_ack_received dummyF32Env c3CubicState c3SenderState 5000
        0).ssthresh = 2000 ∧
    (Cubic.on_ack_received dummyF32Env c3CubicState c3SenderState 5000
        0).cwnd = 1400 ∧
    ¬ 2 * c3CubicState.mss ≤
      (Cubic.on_ack_received dummyF32Env c3CubicState c3SenderState 5000
        0).cwnd := by
  refine ⟨by decide, by decide, by decide, by decide⟩

/-- Witness for the amended C3 at `c3CubicState` (dup-ACK branch) and at a
fresh CUBIC state (RTO branch, counter 0). -/
theorem c3_reduction_ssthresh_floor_witness :
    (2 * c3CubicState.mss < u32Mod) ∧
    (c3CubicState.duplicate_ack_count + 1 = dupAckThreshold) ∧
    2 * c3CubicState.mss ≤
      (c3CubicState.on_dup_ack_received c3SenderState 5000).ssthresh ∧
    (c3CubicState.retransmitted_packets_in_flight = 0) ∧
    2 * c3CubicState.mss ≤ (c3CubicState.on_rto c3SenderState).ssthresh :=
  ⟨by decide, by decide,
    ((c3_reduction_ssthresh_floor c3CubicState c3SenderState 5000
      (by decide)).1 (by decide) (Or.inl (by decide))).2.2,
    by decide,
    ((c3_reduction_ssthresh_floor c3CubicState c3SenderState 5000
      (by decide)).2 (by decide)).2⟩

/-! Invariant machinery for the reachable-state claims C1 and C8. -/

theorem ackLoop_no_err_len (q : List UnackedSegment) (r now : Nat)
    (hr : r ≤ unackedLen q) (hne : (ackLoop q r now).midErr = false) :
    unackedLen (ackLoop q r now).queue = unackedLen q - r := by
  induction q generalizing r with
  | nil =>
    simp [ackLoop]
  | cons seg rest ih =>
    by_cases h1 : r < seg.bytes.length
    · rw [show (ackLoop (seg :: rest) r now).midErr = true by
        simp [ackLoop, h1]] at hne
      exact absurd hne (by simp)
    · by_cases h2 : r - seg.bytes.length = 0
      · simp only [ackLoop, if_neg h1, if_pos h2]
        simp only [unackedLen_cons] at hr ⊢
        omega
      · have hne2 : (ackLoop rest (r - seg.bytes.length) now).midErr = false := by
          simp only [ackLoop, if_neg h1, if_neg h2] at hne
          exact hne
        have hr2 : r - seg.bytes.length ≤ unackedLen rest := by
          simp only [unackedLen_cons] at hr
          omega
        simp only [ackLoop, if_neg h1, if_neg h2]
        rw [ih (r - seg.bytes.length) hr2 hne2]
        simp only [unackedLen_cons]
        omega

theorem ackLoop_queue_subset (q : List UnackedSegment) (r now : Nat)
    (x : UnackedSegment) (hx : x ∈ (ackLoop q r now).queue) : x ∈ q := by
  induction q generalizing r with
  | nil => simp [ackLoop] at hx
  | cons seg rest ih =>
    by_cases h1 : r < seg.bytes.length
    · simp only [ackLoop, if_pos h1] at hx
      exact List.mem_cons_of_mem _ hx
    · by_cases h2 : r - seg.bytes.length = 0
      · simp only [ackLoop, if_neg h1, if_pos h2] at hx
        exact List.mem_cons_of_mem _ hx
      · simp only [ackLoop, if_neg h1, if_neg h2] at hx
        exact List.mem_cons_of_mem _ (ih _ hx)

theorem ackLoop_samples_src (q : List UnackedSegment) (r now : Nat)
    (p : UnackedSegment × Nat) (hp : p ∈ (ackLoop q r now).samples) :
    p.1 ∈ q ∧ p.1.initial_tx ≠ none := by
  induction q generalizing r with
  | nil => simp [ackLoop] at hp
  | cons seg rest ih =>
    by_cases h1 : r < seg.bytes.length
    · simp [ackLoop, if_pos h1] at hp
    · by_cases h2 : r - seg.bytes.length = 0
      · simp only [ackLoop, if_neg h1, if_pos h2] at hp
        cases htx : seg.initial_tx with
        | none => rw [htx] at hp; simp at hp
        | some t =>
          rw [htx] at hp
          simp at hp
          subst hp
          exact ⟨List.mem_cons_self _ _, by simp [htx]⟩
      · simp only [ackLoop, if_neg h1, if_neg h2] at hp
        cases htx : seg.initial_tx with
        | none =>
          rw [htx] at hp
          simp at hp
          obtain ⟨h3, h4⟩ := ih _ hp
          exact ⟨List.mem_cons_of_mem _ h3, h4⟩
        | some t =>
          rw [htx] at hp
          simp at hp
          rcases hp with hp | hp
          · subst hp
            exact ⟨List.mem_cons_self _ _, by simp [htx]⟩
          · obtain ⟨h3, h4⟩ := ih _ hp
            exact ⟨List.mem_cons_of_mem _ h3, h4⟩

/-- The inductive invariant behind claim C1: the unacked queue carries,
modulo `2^32`, the bytes between `base_seq_no` and `sent_seq_no`, with the
sequence numbers in `u32` range.  The equality is modular because the
fast-path guard of `send` compares the WRAPPED `u32` sum
`sent_data + buf_len` (sender.rs line 388): when outstanding data plus the
new buffer reach `2^32` the source still takes the fast path on the
wrapped sum, pushing more queued bytes than the sequence-number distance. -/
def SenderInv (s : Sender) : Prop :=
  unackedLen s.unacked_queue % u32Mod
      = u32sub s.sent_seq_no s.base_seq_no ∧
  s.base_seq_no < u32Mod ∧ s.sent_seq_no < u32Mod

theorem u32sub_add_mod (L len sent base : Nat) (hb : base < u32Mod)
    (h : L % u32Mod = u32sub sent base) :
    (L + len) % u32Mod = u32sub (u32add sent len) base := by
  simp only [u32add, u32sub, u32Mod] at *
  omega

theorem send_inv (s : Sender) (buf : List Nat) (arp : Bool) (now : Nat)
    (h : SenderInv s) : SenderInv (s.send buf arp now).1 := by
  obtain ⟨heq, hb, hs⟩ := h
  unfold Sender.send
  split
  · exact ⟨heq, hb, hs⟩
  · split
    · exact ⟨heq, hb, hs⟩
    · dsimp only
      split
      · refine ⟨?_, hb, u32add_lt _ _⟩
        rw [unackedLen_append, unackedLen_cons, unackedLen_nil]
        have := u32sub_add_mod (unackedLen s.unacked_queue) buf.length
          s.sent_seq_no s.base_seq_no hb heq
        simpa using this
      · exact ⟨heq, hb, hs⟩

theorem remote_ack_inv (s : Sender) (ack now : Nat) (h : SenderInv s)
    (hok : (s.remote_ack ack now).2
      ≠ some (Fail.Ignored "ACK is not on segment boundary")) :
    SenderInv (s.remote_ack ack now).1 := by
  obtain ⟨heq, hb, hs⟩ := h
  unfold Sender.remote_ack at hok ⊢
  by_cases hfin : s.state = SenderState.SentFin
  · rw [if_pos hfin]
    exact ⟨heq, hb, hs⟩
  · rw [if_neg hfin] at hok ⊢
    dsimp only at hok ⊢
    by_cases houts : u32sub s.sent_seq_no s.base_seq_no
        < u32sub ack s.base_seq_no
    · rw [if_pos houts]
      exact ⟨heq, hb, hs⟩
    · rw [if_neg houts] at hok ⊢
      by_cases hzero : u32sub ack s.base_seq_no = 0
      · rw [if_pos hzero]
        exact ⟨heq, hb, hs⟩
      · rw [if_neg hzero] at hok ⊢
        by_cases herr : (ackLoop s.unacked_queue
            (u32sub ack s.base_seq_no) now).midErr = true
        · rw [if_pos herr] at hok
          exact absurd rfl hok
        · rw [if_neg herr]
          have hout : u32sub ack s.base_seq_no
              ≤ u32sub s.sent_seq_no s.base_seq_no := Nat.le_of_not_lt houts
          have hle : u32sub ack s.base_seq_no
              ≤ unackedLen s.unacked_queue := by
            have h1 := Nat.mod_le (unackedLen s.unacked_queue) u32Mod
            omega
          refine ⟨?_, u32add_lt _ _, hs⟩
          rw [ackLoop_no_err_len _ _ now hle (Bool.not_eq_true _ ▸ herr),
            u32sub_base_advance _ _ _ hs hb hout]
          simp only [u32Mod] at heq ⊢
          omega

theorem retransmit_inv (s : Sender) (cause : RetransmitCause) (now : Nat)
    (h : SenderInv s) : SenderInv (s.retransmit cause now) := by
  obtain ⟨heq, hb, hs⟩ := h
  unfold Sender.retransmit
  cases hq : s.unacked_queue with
  | nil => exact ⟨heq, hb, hs⟩
  | cons seg rest =>
    refine ⟨?_, hb, hs⟩
    rw [unackedLen_cons]
    rw [hq, unackedLen_cons] at heq
    exact heq

theorem close_inv (s : Sender) (h : SenderInv s) : SenderInv (s.close).1 := by
  obtain ⟨heq, hb, hs⟩ := h
  unfold Sender.close
  split
  · exact ⟨heq, hb, hs⟩
  · exact ⟨heq, hb, hs⟩

theorem update_remote_window_inv (s : Sender) (hdr : Nat) (h : SenderInv s) :
    SenderInv (s.update_remote_window hdr).1 := by
  obtain ⟨heq, hb, hs⟩ := h
  unfold Sender.update_remote_window
  split
  · exact ⟨heq, hb, hs⟩
  · split
    · exact ⟨heq, hb, hs⟩
    · exact ⟨heq, hb, hs⟩

theorem pop_unsent_inv (s : Sender) (max_bytes : Nat) (h : SenderInv s) :
    SenderInv (s.pop_unsent max_bytes).1 := by
  obtain ⟨heq, hb, hs⟩ := h
  unfold Sender.pop_unsent
  cases hq : s.unsent_queue with
  | nil => exact ⟨heq, hb, hs⟩
  | cons buf rest =>
    dsimp only
    split
    · exact ⟨heq, hb, hs⟩
    · exact ⟨heq, hb, hs⟩

theorem pop_one_unsent_byte_inv (s : Sender) (h : SenderInv s) :
    SenderInv (s.pop_one_unsent_byte).1 := by
  obtain ⟨heq, hb, hs⟩ := h
  unfold Sender.pop_one_unsent_byte
  cases hq : s.unsent_queue with
  | nil => exact ⟨heq, hb, hs⟩
  | cons buf rest => exact ⟨heq, hb, hs⟩

theorem senderStep_inv (s : Sender) (e : SenderEvent) (h : SenderInv s)
    (hok : (senderStep s e).2
      ≠ some (Fail.Ignored "ACK is not on segment boundary")) :
    SenderInv (senderStep s e).1 := by
  cases e with
  | send buf arp now => exact send_inv s buf arp now h
  | remoteAck ack now => exact remote_ack_inv s ack now h hok
  | retransmit cause now => exact retransmit_inv s cause now h
  | close => exact close_inv s h
  | updateRemoteWindow hdr => exact update_remote_window_inv s hdr h
  | popUnsent max_bytes => exact pop_unsent_inv s max_bytes h
  | popOneUnsentByte => exact pop_one_unsent_byte_inv s h

theorem runSender_inv (evs : List SenderEvent) (s : Sender) (h : SenderInv s)
    (hclean : cleanRun s evs = true) : SenderInv (runSender s evs) := by
  induction evs generalizing s with
  | nil => exact h
  | cons e es ih =>
    simp only [cleanRun, Bool.and_eq_true, decide_eq_true_eq] at hclean
    exact ih _ (senderStep_inv s e h hclean.1) hclean.2

theorem senderNew_inv (seq win sc m : Nat) (hseq : seq < u32Mod) :
    SenderInv (Sender.new seq win sc m) := by
  refine ⟨?_, hseq, hseq⟩
  show unackedLen [] % u32Mod = u32sub seq seq
  simp only [unackedLen_nil, u32sub, u32Mod] at *
  omega

/-- Claim C1, amended: in every Sender state reached along a trace of
operations in which no `remote_ack` reported the mid-segment
acknowledgement error, the total byte length of `unacked_queue` is
congruent, modulo `2^32`, to `sent_seq_no − base_seq_no`.  The congruence
cannot be strengthened to an exact `Nat` equality: the fast-path guard of
`send` compares the wrapped `u32` sum `sent_data + buf_len`, so once the
outstanding bytes plus a new buffer reach `2^32` the fast path still fires
and the queue holds more bytes than the sequence-number distance.  A
mid-segment ACK breaks even the congruence: the loop has already popped
segments when it bails out, and `base_seq_no` is never advanced on that
path. -/
theorem c1_unacked_len_eq_window (seq win sc m : Nat) (hseq : seq < u32Mod)
    (evs : List SenderEvent)
    (hclean : cleanRun (Sender.new seq win sc m) evs = true) :
    unackedLen (runSender (Sender.new seq win sc m) evs).unacked_queue
        % u32Mod
      = u32sub (runSender (Sender.new seq win sc m) evs).sent_seq_no
          (runSender (Sender.new seq win sc m) evs).base_seq_no :=
  (runSender_inv evs _ (senderNew_inv seq win sc m hseq) hclean).1

/-- Counterexample to C1 as stated: from a fresh sender, two fast-path
sends of 3 bytes each (reachable states), then `remote_ack` landing in the
middle of the second segment.  The call returns the mid-segment error
after having popped BOTH segments (the first legitimately, the second
destructively) without advancing `base_seq_no`, so afterwards the queue
holds 0 bytes while `sent_seq_no − base_seq_no = 6`. -/
theorem c1_counterexample :
    ((runSender (Sender.new 100 50 0 1000)
        [SenderEvent.send [0, 0, 0] true 0,
          SenderEvent.send [1, 1, 1] true 1]).remote_ack 104 10).2
      = some (Fail.Ignored "ACK is not on segment boundary") ∧
    unackedLen ((runSender (Sender.new 100 50 0 1000)
        [SenderEvent.send [0, 0, 0] true 0,
          SenderEvent.send [1, 1, 1] true 1]).remote_ack 104 10).1.unacked_queue
      = 0 ∧
    u32sub ((runSender (Sender.new 100 50 0 1000)
        [SenderEvent.send [0, 0, 0] true 0,
          SenderEvent.send [1, 1, 1] true 1]).remote_ack
            104 10).1.sent_seq_no
          ((runSender (Sender.new 100 50 0 1000)
        [SenderEvent.send [0, 0, 0] true 0,
          SenderEvent.send [1, 1, 1] true 1]).remote_ack
            104 10).1.base_seq_no = 6 := by
  refine ⟨by decide, by decide, by decide⟩

/-- Witness for the amended C1 on a concrete clean trace: two sends, one
exact acknowledgement, one retransmission. -/
theorem c1_unacked_len_eq_window_witness :
    (cleanRun (Sender.new 100 50 0 1000)
        [SenderEvent.send [0, 0, 0] true 0,
          SenderEvent.send [1, 1, 1] true 1,
          SenderEvent.remoteAck 103 10,
          SenderEvent.retransmit RetransmitCause.TimeOut 20] = true) ∧
    unackedLen (runSender (Sender.new 100 50 0 1000)
        [SenderEvent.send [0, 0, 0] true 0,
          SenderEvent.send [1, 1, 1] true 1,
          SenderEvent.remoteAck 103 10,
          SenderEvent.retransmit RetransmitCause.TimeOut 20]).unacked_queue
        % u32Mod
      = u32sub (runSender (Sender.new 100 50 0 1000)
        [SenderEvent.send [0, 0, 0] true 0,
          SenderEvent.send [1, 1, 1] true 1,
          SenderEvent.remoteAck 103 10,
          SenderEvent.retransmit RetransmitCause.TimeOut 20]).sent_seq_no
          (runSender (Sender.new 100 50 0 1000)
        [SenderEvent.send [0, 0, 0] true 0,
          SenderEvent.send [1, 1, 1] true 1,
          SenderEvent.remoteAck 103 10,
          SenderEvent.retransmit RetransmitCause.TimeOut 20]).base_seq_no :=
  ⟨by decide,
    c1_unacked_len_eq_window 100 50 0 1000 (by decide) _ (by decide)⟩

/-- The inductive invariant behind claim C8 (Karn): every queued segment
already retransmitted has `initial_tx` cleared, and every RTT sample ever
fed to the estimator came from a never-retransmitted segment. -/
def KarnInv (s : Sender) : Prop :=
  (∀ seg ∈ s.unacked_queue, seg.retransmitted = true → seg.initial_tx = none)
    ∧ (∀ p ∈ s.rto_samples, p.1.retransmitted = false)

theorem send_karn (s : Sender) (buf : List Nat) (arp : Bool) (now : Nat)
    (h : KarnInv s) : KarnInv (s.send buf arp now).1 := by
  obtain ⟨hq, hsamp⟩ := h
  unfold Sender.send
  split
  · exact ⟨hq, hsamp⟩
  · split
    · exact ⟨hq, hsamp⟩
    · dsimp only
      split
      · refine ⟨?_, hsamp⟩
        intro seg hseg hret
        rcases List.mem_append.mp hseg with hseg | hseg
        · exact hq seg hseg hret
        · simp at hseg
          rw [hseg] at hret
          simp at hret
      · exact ⟨hq, hsamp⟩

theorem remote_ack_karn (s : Sender) (ack now : Nat) (h : KarnInv s) :
    KarnInv (s.remote_ack ack now).1 := by
  obtain ⟨hq, hsamp⟩ := h
  unfold Sender.remote_ack
  by_cases hfin : s.state = SenderState.SentFin
  · rw [if_pos hfin]
    exact ⟨hq, hsamp⟩
  · rw [if_neg hfin]
    dsimp only
    split
    · exact ⟨hq, hsamp⟩
    · split
      · exact ⟨hq, hsamp⟩
      · have hstep : ∀ res : AckPop,
            res = ackLoop s.unacked_queue (u32sub ack s.base_seq_no) now →
            (∀ seg ∈ res.queue,
                seg.retransmitted = true → seg.initial_tx = none) ∧
            (∀ p ∈ s.rto_samples ++ res.samples,
                p.1.retransmitted = false) := by
          intro res hres
          constructor
          · intro seg hseg hret
            exact hq seg (ackLoop_queue_subset _ _ _ _ (hres ▸ hseg)) hret
          · intro p hp
            rcases List.mem_append.mp hp with hp | hp
            · exact hsamp p hp
            · obtain ⟨hmem, htx⟩ := ackLoop_samples_src _ _ _ _ (hres ▸ hp)
              by_cases hret : p.1.retransmitted = true
              · exact absurd (hq p.1 hmem hret) htx
              · simpa using hret
        split
        · exact hstep _ rfl
        · exact hstep _ rfl

theorem retransmit_karn (s : Sender) (cause : RetransmitCause) (now : Nat)
    (h : KarnInv s) : KarnInv (s.retransmit cause now) := by
  obtain ⟨hq, hsamp⟩ := h
  unfold Sender.retransmit
  cases hqq : s.unacked_queue with
  | nil => exact ⟨hq, hsamp⟩
  | cons seg rest =>
    refine ⟨?_, hsamp⟩
    intro x hx hret
    rcases List.mem_cons.mp hx with hx | hx
    · rw [hx]
    · exact hq x (hqq ▸ List.mem_cons_of_mem _ hx) hret

theorem close_karn (s : Sender) (h : KarnInv s) : KarnInv (s.close).1 := by
  obtain ⟨hq, hsamp⟩ := h
  unfold Sender.close
  split
  · exact ⟨hq, hsamp⟩
  · exact ⟨hq, hsamp⟩

theorem update_remote_window_karn (s : Sender) (hdr : Nat) (h : KarnInv s) :
    KarnInv (s.update_remote_window hdr).1 := by
  obtain ⟨hq, hsamp⟩ := h
  unfold Sender.update_remote_window
  split
  · exact ⟨hq, hsamp⟩
  · split
    · exact ⟨hq, hsamp⟩
    · exact ⟨hq, hsamp⟩

theorem pop_unsent_karn (s : Sender) (max_bytes : Nat) (h : KarnInv s) :
    KarnInv (s.pop_unsent max_bytes).1 := by
  obtain ⟨hq, hsamp⟩ := h
  unfold Sender.pop_unsent
  cases hqq : s.unsent_queue with
  | nil => exact ⟨hq, hsamp⟩
  | cons buf rest =>
    dsimp only
    split
    · exact ⟨hq, hsamp⟩
    · exact ⟨hq, hsamp⟩

theorem pop_one_unsent_byte_karn (s : Sender) (h : KarnInv s) :
    KarnInv (s.pop_one_unsent_byte).1 := by
  obtain ⟨hq, hsamp⟩ := h
  unfold Sender.pop_one_unsent_byte
  cases hqq : s.unsent_queue with
  | nil => exact ⟨hq, hsamp⟩
  | cons buf rest => exact ⟨hq, hsamp⟩

theorem senderStep_karn (s : Sender) (e : SenderEvent) (h : KarnInv s) :
    KarnInv (senderStep s e).1 := by
  cases e with
  | send buf arp now => exact send_karn s buf arp now h
  | remoteAck ack now => exact remote_ack_karn s ack now h
  | retransmit cause now => exact retransmit_karn s cause now h
  | close => exact close_karn s h
  | updateRemoteWindow hdr => exact update_remote_window_karn s hdr h
  | popUnsent max_bytes => exact pop_unsent_karn s max_bytes h
  | popOneUnsentByte => exact pop_one_unsent_byte_karn s h

theorem runSender_karn (evs : List SenderEvent) (s : Sender)
    (h : KarnInv s) : KarnInv (runSender s evs) := by
  induction evs generalizing s with
  | nil => exact h
  | cons e es ih => exact ih _ (senderStep_karn s e h)

/-- Claim C8 (Karn): along every trace of Sender operations from a fresh
sender, every RTT sample fed to the RTO estimator comes from a segment that
was never retransmitted — `retransmit` clears `initial_tx` of the (head)
segment it resends, and `remote_ack` samples only popped segments whose
`initial_tx` is still present. -/
theorem c8_no_rtt_sample_from_retransmit (seq win sc m : Nat)
    (evs : List SenderEvent) (p : UnackedSegment × Nat)
    (hp : p ∈ (runSender (Sender.new seq win sc m) evs).rto_samples) :
    p.1.retransmitted = false :=
  (runSender_karn evs (Sender.new seq win sc m)
    ⟨fun seg hseg _ => absurd hseg (by simp [Sender.new]),
      fun q hq => absurd hq (by simp [Sender.new])⟩).2 p hp

/-- Witness for C8: a send followed by an exact acknowledgement produces
one sample, taken from the never-retransmitted segment. -/
theorem c8_no_rtt_sample_from_retransmit_witness :
    (({ bytes := [7, 7], initial_tx := some 0, retransmitted := false }, 9)
        ∈ (runSender (Sender.new 100 50 0 1000)
            [SenderEvent.send [7, 7] true 0,
              SenderEvent.remoteAck 102 9]).rto_samples) ∧
    ({ bytes := [7, 7], initial_tx := some 0,
        retransmitted := false } : UnackedSegment).retransmitted = false :=
  ⟨by decide,
    c8_no_rtt_sample_from_retransmit 100 50 0 1000
      [SenderEvent.send [7, 7] true 0, SenderEvent.remoteAck 102 9]
      ({ bytes := [7, 7], initial_tx := some 0, retransmitted := false }, 9)
      (by decide)⟩

end Demikernel
